import Mathlib

/-!
Verification of the InterDex pass orchestration
(`src/opt/interdex/InterDexPass.cpp` of newobj/redex).

The file shallowly embeds the pass: the segment-name lookup table
(`get_mixed_mode_dex_statuses`), the explicit classification-list reader and
flag scan (`get_mixed_mode_classes`), configuration validation
(`configure_pass`), and the two `run_pass` overloads.  The packing engine
(`InterDex::run`) is not part of the excerpt; where a claim depends on it, it
is modelled from the specification and said so in its doc comment.

External effects are made explicit: the file system is a function from file
names to optional line lists, `DexType::get_type` and `type_class` are
parameters, fatal `always_assert_log` / `exit(1)` calls become `Except.error`,
and plugin hooks / metrics become an event log.
-/

namespace InterDex

/-- The mixed-mode dex statuses named by the built-in table
(`interdex::DexStatus` values reachable from `string_to_status`). -/
inductive DexStatus : Type where
  | FIRST_COLDSTART_DEX
  | FIRST_EXTENDED_DEX
  | SCROLL_DEX
deriving DecidableEq, Repr

/-- The fixed built-in table mapping segment names to statuses
(`string_to_status`, InterDexPass.cpp lines 22-25); `none` models absence
from the table. -/
def string_to_status (s : String) : Option DexStatus :=
  if s = "first_coldstart_dex" then some .FIRST_COLDSTART_DEX
  else if s = "first_extended_dex" then some .FIRST_EXTENDED_DEX
  else if s = "scroll_dex" then some .SCROLL_DEX
  else none

/-- Insert into a set represented as a duplicate-free list
(models `unordered_set::emplace`). -/
def setInsert {α : Type} [DecidableEq α] (acc : List α) (x : α) : List α :=
  if x ∈ acc then acc else acc ++ [x]

/-- Loop body of `get_mixed_mode_dex_statuses` (lines 27-33): walk the
configured names in order, abort (`always_assert_log`) on the first name
absent from the table, otherwise accumulate the statuses as a set. -/
def get_mixed_mode_dex_statuses_go (acc : List DexStatus) :
    List String → Except String (List DexStatus)
  | [] => .ok acc
  | n :: rest =>
    match string_to_status n with
    | none => .error n
    | some st => get_mixed_mode_dex_statuses_go (setInsert acc st) rest

/-- `get_mixed_mode_dex_statuses` (lines 17-36): resolve every configured
segment name via the built-in table, fatally aborting on the first unknown
name.  The error value carries the offending name. -/
def get_mixed_mode_dex_statuses (names : List String) :
    Except String (List DexStatus) :=
  get_mixed_mode_dex_statuses_go [] names

/-- Classes are identified abstractly (identity is by pointer in the code,
by qualified identifier in the data model). -/
abbrev DexClass := Nat

/-- Types, the intermediate step of identifier resolution. -/
abbrev DexType := Nat

/-- Loop body of the file-based `get_mixed_mode_classes` (lines 50-69):
for each identifier, resolve it via `DexType::get_type` then `type_class`,
skipping (with a diagnostic only) when either step fails; a resolved class
already in the accumulated set is a fatal duplicate (`exit(1)`). -/
def read_mixed_mode_classes_go (get_type : String → Option DexType)
    (type_class : DexType → Option DexClass) (acc : List DexClass) :
    List String → Except String (List DexClass)
  | [] => .ok acc
  | n :: rest =>
    match get_type n with
    | none => read_mixed_mode_classes_go get_type type_class acc rest
    | some ty =>
      match type_class ty with
      | none => read_mixed_mode_classes_go get_type type_class acc rest
      | some cls =>
        if cls ∈ acc then .error "Duplicate classes found in mixed mode list"
        else read_mixed_mode_classes_go get_type type_class
          (acc ++ [cls]) rest

/-- The file-based `get_mixed_mode_classes` overload (lines 38-73).
`contents` is the file system view of the configured file: `none` models a
file that fails to open, which yields the empty set non-fatally. -/
def get_mixed_mode_classes_file (get_type : String → Option DexType)
    (type_class : DexType → Option DexClass)
    (contents : Option (List String)) : Except String (List DexClass) :=
  match contents with
  | none => .ok []
  | some names => read_mixed_mode_classes_go get_type type_class [] names

/-- The two-argument `get_mixed_mode_classes` overload (lines 75-93): a
configured (non-empty) file name selects the file reader; otherwise every
class of every dex with the mix-mode flag set is collected. -/
def get_mixed_mode_classes (get_type : String → Option DexType)
    (type_class : DexType → Option DexClass)
    (fs : String → Option (List String))
    (has_mix_mode : DexClass → Bool)
    (dexen : List (List DexClass)) (mixed_mode_classes_file : String) :
    Except String (List DexClass) :=
  if mixed_mode_classes_file ≠ "" then
    get_mixed_mode_classes_file get_type type_class
      (fs mixed_mode_classes_file)
  else
    .ok ((dexen.flatten).foldl
      (fun acc cls => if has_mix_mode cls then setInsert acc cls else acc) [])

/-- The external JSON configuration surface read by `configure_pass`:
each field is `none` when the key is absent (so `jw.get` falls back to its
default). -/
structure JsonConfig where
  static_prune : Option Bool
  emit_canaries : Option Bool
  normal_primary_dex : Option Bool
  linear_alloc_limit : Option Nat
  scroll_classes_file : Option String
  can_touch_coldstart_cls : Option Bool
  can_touch_coldstart_extended_cls : Option Bool
  mixed_mode_dexes : Option (List String)

/-- The validated pass configuration (fields of `InterDexPass`). -/
structure PassConfig where
  m_static_prune : Bool
  m_emit_canaries : Bool
  m_normal_primary_dex : Bool
  m_linear_alloc_limit : Nat
  m_mixed_mode_classes_file : String
  m_can_touch_coldstart_cls : Bool
  m_can_touch_coldstart_extended_cls : Bool
  m_mixed_mode_dex_statuses : List DexStatus
deriving DecidableEq, Repr

/-- `InterDexPass::configure_pass` (lines 99-118): read each key with its
default, fatally reject `can_touch_coldstart_cls` without
`can_touch_coldstart_extended_cls` (`always_assert_log`, lines 109-113),
then resolve the configured mixed-mode dex names. -/
def configure_pass (jw : JsonConfig) : Except String PassConfig :=
  let static_prune := jw.static_prune.getD false
  let emit_canaries := jw.emit_canaries.getD true
  let normal_primary_dex := jw.normal_primary_dex.getD false
  let linear_alloc_limit := jw.linear_alloc_limit.getD (11600 * 1024)
  let mixed_mode_classes_file := jw.scroll_classes_file.getD ""
  let can_touch_coldstart_cls := jw.can_touch_coldstart_cls.getD false
  let can_touch_coldstart_extended_cls :=
    jw.can_touch_coldstart_extended_cls.getD false
  if !can_touch_coldstart_cls || can_touch_coldstart_extended_cls then
    match get_mixed_mode_dex_statuses (jw.mixed_mode_dexes.getD []) with
    | .error e => .error e
    | .ok statuses =>
      .ok { m_static_prune := static_prune
            m_emit_canaries := emit_canaries
            m_normal_primary_dex := normal_primary_dex
            m_linear_alloc_limit := linear_alloc_limit
            m_mixed_mode_classes_file := mixed_mode_classes_file
            m_can_touch_coldstart_cls := can_touch_coldstart_cls
            m_can_touch_coldstart_extended_cls :=
              can_touch_coldstart_extended_cls
            m_mixed_mode_dex_statuses := statuses }
  else
    .error "can_touch_coldstart_extended_cls needs to be true"

/-- The mixed-mode setting handed to the packing engine by `run_pass`:
either a pre-defined dex status set (`set_mixed_mode_dex_statuses`), an
explicit class set with its touch permissions (`set_mixed_mode_classes`),
or nothing. -/
inductive MixedModeSetting : Type where
  | dexStatuses (statuses : List DexStatus)
  | classSet (classes : List DexClass)
      (can_touch_coldstart can_touch_coldstart_extended : Bool)
  | unset
deriving DecidableEq, Repr

/-- The mixed-mode selection step of `InterDexPass::run_pass`
(lines 137-152): a non-empty pre-defined dex status set has priority and is
handed to the engine as is; only otherwise are the mixed-mode classes
computed, and they are handed over only when non-empty. -/
def select_mixed_mode (get_type : String → Option DexType)
    (type_class : DexType → Option DexClass)
    (fs : String → Option (List String))
    (has_mix_mode : DexClass → Bool)
    (cfg : PassConfig) (dexen : List (List DexClass)) :
    Except String MixedModeSetting :=
  if cfg.m_mixed_mode_dex_statuses.length ≠ 0 then
    .ok (.dexStatuses cfg.m_mixed_mode_dex_statuses)
  else
    match get_mixed_mode_classes get_type type_class fs has_mix_mode dexen
        cfg.m_mixed_mode_classes_file with
    | .error e => .error e
    | .ok mixed_mode_classes =>
      if mixed_mode_classes.length > 0 then
        .ok (.classSet mixed_mode_classes cfg.m_can_touch_coldstart_cls
          cfg.m_can_touch_coldstart_extended_cls)
      else
        .ok .unset

/-- Observable side effects of one `run_pass` invocation: plugin hook calls
and metric publications, in program order. -/
inductive PassEvent : Type where
  | pluginConfigure (plugin : Nat)
  | pluginCleanup (plugin : Nat)
  | setMetric (name : String) (value : Nat)
deriving DecidableEq, Repr

/-- The packing engine `InterDex::run` is outside the excerpt; `run_pass`
only observes the new dex vector and the two counters it reports.  An
engine maps the mixed-mode setting and the input dexen to that triple. -/
def Engine : Type :=
  MixedModeSetting → List (List DexClass) →
    List (List DexClass) × Nat × Nat

/-- The dex-vector-level `InterDexPass::run_pass` (lines 120-165):
configure every plugin, select the mixed-mode setting, run the engine,
clean up every plugin, and publish the two counters as metrics. -/
def run_pass_dexen (engine : Engine) (plugins : List Nat)
    (get_type : String → Option DexType)
    (type_class : DexType → Option DexClass)
    (fs : String → Option (List String))
    (has_mix_mode : DexClass → Bool)
    (cfg : PassConfig) (dexen : List (List DexClass)) :
    Except String (List (List DexClass) × List PassEvent) :=
  let configureEvents := plugins.map PassEvent.pluginConfigure
  match select_mixed_mode get_type type_class fs has_mix_mode cfg dexen with
  | .error e => .error e
  | .ok mm =>
    let r := engine mm dexen
    .ok (r.1,
      configureEvents ++ plugins.map PassEvent.pluginCleanup ++
        [.setMetric "cold_start_set_dex_count" r.2.1,
         .setMetric "scroll_set_dex_count" r.2.2])

/-- One store of the input: a root flag and its dex vector
(`DexStore::is_root_store`, `DexStore::get_dexen`). -/
structure DexStore where
  is_root_store : Bool
  dexen : List (List DexClass)
deriving DecidableEq, Repr

/-- The store loop of the top-level `run_pass` (lines 178-182): each root
store has its dexen repacked by the inner `run_pass`; every other store is
left untouched.  Side-effect events accumulate in traversal order. -/
def process_stores
    (inner : List (List DexClass) →
      Except String (List (List DexClass) × List PassEvent)) :
    List DexStore → Except String (List DexStore × List PassEvent)
  | [] => .ok ([], [])
  | s :: rest =>
    if s.is_root_store then
      match inner s.dexen with
      | .error e => .error e
      | .ok r =>
        match process_stores inner rest with
        | .error e => .error e
        | .ok t => .ok ({ s with dexen := r.1 } :: t.1, r.2 ++ t.2)
    else
      match process_stores inner rest with
      | .error e => .error e
      | .ok t => .ok (s :: t.1, t.2)

/-- The top-level `InterDexPass::run_pass` (lines 167-183): when the pass
manager reports that no ProGuard configuration was provided, the pass
returns immediately (diagnostic only — TRACE calls are not modelled),
leaving the stores unchanged and producing no event; otherwise every root
store is processed. -/
def run_pass_stores (no_proguard_rules : Bool)
    (inner : List (List DexClass) →
      Except String (List (List DexClass) × List PassEvent))
    (stores : List DexStore) :
    Except String (List DexStore × List PassEvent) :=
  if no_proguard_rules then .ok (stores, [])
  else process_stores inner stores

namespace SpecModel

/-- Modelled from the spec: the priority segments of the data model (§3),
`DefaultSegment`, `FirstColdStart`, `FirstExtendedColdStart`, `Scroll`.
The enumeration itself is outside the excerpt (only the status table that
names three of its values is shown). -/
inductive PrioritySegment : Type where
  | firstColdStart
  | firstExtendedColdStart
  | scroll
  | defaultSegment
deriving DecidableEq, Repr

/-- Modelled from the spec: a unit of packing (§3 CompiledClass) — a stable
identifier and a non-negative size weight. -/
structure CompiledClass where
  cid : Nat
  weight : Nat
deriving DecidableEq, Repr

/-- Modelled from the spec: one output unit (§3 OutputUnit) — the segment it
serves, its ordered member classes, and whether a synthesized canary marker
occupies the first slot (the canary is not a scope class). -/
structure OutputUnit where
  segment : PrioritySegment
  classes : List CompiledClass
  canary : Bool
deriving DecidableEq, Repr

/-- Modelled from the spec: step 1 of the packing algorithm (§4.3) — when
`staticPrune` is set, remove classes neither reachable nor protected by the
classification; the reachability oracle and the protection predicate are
opaque collaborators (§9).  With `staticPrune` unset the scope is kept
whole. -/
def prune (staticPrune : Bool) (reachable prot : CompiledClass → Bool)
    (scope : List CompiledClass) : List CompiledClass :=
  if staticPrune then scope.filter (fun c => reachable c || prot c)
  else scope

/-- Modelled from the spec: segment-priority packing order (§4.3 step 2). -/
def segOrder : List PrioritySegment :=
  [.firstColdStart, .firstExtendedColdStart, .scroll, .defaultSegment]

/-- Modelled from the spec: step 3 of the packing algorithm (§4.3) — greedy
accumulation into the current unit; a class is added when the unit is still
empty (so a single oversized class occupies a unit alone, never dropped) or
when it fits under the ceiling, and otherwise the unit is closed and a new
one opened with that class. -/
def greedyPackGo (ceiling : Nat) (cur : List CompiledClass) (curSize : Nat) :
    List CompiledClass → List (List CompiledClass)
  | [] => [cur]
  | c :: rest =>
    if curSize + c.weight ≤ ceiling then
      greedyPackGo ceiling (cur ++ [c]) (curSize + c.weight) rest
    else
      cur :: greedyPackGo ceiling [c] c.weight rest

/-- Modelled from the spec: greedy packing of one segment partition into
units (§4.3 step 3); the empty partition yields no unit. -/
def greedyPack (ceiling : Nat) : List CompiledClass → List (List CompiledClass)
  | [] => []
  | c :: rest => greedyPackGo ceiling [c] c.weight rest

/-- Modelled from the spec: the packing engine run (§4.3) — prune (step 1),
partition the pruned scope by segment in priority order preserving relative
order inside each partition (step 2, with `seg` the per-class segment
assignment the classification produced), greedily pack each partition
(step 3), and concatenate the units in segment-priority order (step 5).
Canaries are synthesized markers, tracked by a flag on the unit. -/
def interdex_run (ceiling : Nat) (emitCanaries staticPrune : Bool)
    (reachable prot : CompiledClass → Bool)
    (seg : CompiledClass → PrioritySegment)
    (scope : List CompiledClass) : List OutputUnit :=
  let pruned := prune staticPrune reachable prot scope
  (segOrder.map (fun s =>
      (greedyPack ceiling (pruned.filter (fun c => seg c = s))).map
        (fun u => OutputUnit.mk s u emitCanaries))).flatten

/-- The classes contained in a packing run output, in unit order. -/
def outputClasses (units : List OutputUnit) : List CompiledClass :=
  (units.map OutputUnit.classes).flatten

end SpecModel

/-! ### Helper lemmas -/

/-- The combined resolution of one identifier: `DexType::get_type` followed
by `type_class` (lines 51-62); `none` exactly when either step fails and the
entry is skipped. -/
def resolveClass (get_type : String → Option DexType)
    (type_class : DexType → Option DexClass) (n : String) :
    Option DexClass :=
  (get_type n).bind type_class

theorem read_go_cons (get_type : String → Option DexType)
    (type_class : DexType → Option DexClass) (acc : List DexClass)
    (n : String) (rest : List String) :
    read_mixed_mode_classes_go get_type type_class acc (n :: rest) =
      match resolveClass get_type type_class n with
      | none => read_mixed_mode_classes_go get_type type_class acc rest
      | some cls =>
        if cls ∈ acc then .error "Duplicate classes found in mixed mode list"
        else read_mixed_mode_classes_go get_type type_class
          (acc ++ [cls]) rest := by
  cases h : get_type n with
  | none => simp [read_mixed_mode_classes_go, resolveClass, h]
  | some ty =>
    cases h2 : type_class ty with
    | none => simp [read_mixed_mode_classes_go, resolveClass, h, h2]
    | some cls => simp [read_mixed_mode_classes_go, resolveClass, h, h2]

theorem read_go_ok (get_type : String → Option DexType)
    (type_class : DexType → Option DexClass) :
    ∀ (names : List String) (acc res : List DexClass), acc.Nodup →
      read_mixed_mode_classes_go get_type type_class acc names = .ok res →
      res = acc ++ names.filterMap (resolveClass get_type type_class) ∧
        res.Nodup := by
  intro names
  induction names with
  | nil =>
    intro acc res hnd h
    simp [read_mixed_mode_classes_go] at h
    simp [h.symm, hnd]
  | cons n rest ih =>
    intro acc res hnd h
    rw [read_go_cons] at h
    cases hr : resolveClass get_type type_class n with
    | none =>
      rw [hr] at h
      simpa [List.filterMap_cons, hr] using ih acc res hnd h
    | some cls =>
      rw [hr] at h
      by_cases hmem : cls ∈ acc
      · simp [hmem] at h
      · simp only [if_neg hmem] at h
        have hnd2 : (acc ++ [cls]).Nodup := by
          simp [List.nodup_append, hnd, hmem]
        have := ih (acc ++ [cls]) res hnd2 h
        simpa [List.filterMap_cons, hr, List.append_assoc] using this

theorem read_go_ok_of_nodup (get_type : String → Option DexType)
    (type_class : DexType → Option DexClass) :
    ∀ (names : List String) (acc : List DexClass),
      (acc ++ names.filterMap (resolveClass get_type type_class)).Nodup →
      read_mixed_mode_classes_go get_type type_class acc names =
        .ok (acc ++ names.filterMap (resolveClass get_type type_class)) := by
  intro names
  induction names with
  | nil => intro acc _; simp [read_mixed_mode_classes_go]
  | cons n rest ih =>
    intro acc hnd
    rw [read_go_cons]
    cases hr : resolveClass get_type type_class n with
    | none =>
      simp only [List.filterMap_cons, hr] at hnd ⊢
      exact ih acc hnd
    | some cls =>
      simp only [List.filterMap_cons, hr] at hnd ⊢
      have hmem : cls ∉ acc := by
        intro hc
        rw [List.nodup_append] at hnd
        exact hnd.2.2 hc (by simp)
      rw [if_neg hmem]
      have := ih (acc ++ [cls]) (by simpa [List.append_assoc] using hnd)
      simpa [List.append_assoc] using this

theorem statuses_go_error :
    ∀ (pre : List String) (acc : List DexStatus) (n : String)
      (post : List String),
      (∀ m ∈ pre, (string_to_status m).isSome) →
      string_to_status n = none →
      get_mixed_mode_dex_statuses_go acc (pre ++ n :: post) = .error n := by
  intro pre
  induction pre with
  | nil =>
    intro acc n post _ hn
    simp [get_mixed_mode_dex_statuses_go, hn]
  | cons m rest ih =>
    intro acc n post hpre hn
    have hm : (string_to_status m).isSome := hpre m (by simp)
    cases hm2 : string_to_status m with
    | none => rw [hm2] at hm; simp at hm
    | some st =>
      simp only [List.cons_append, get_mixed_mode_dex_statuses_go, hm2]
      exact ih _ n post (fun x hx => hpre x (by simp [hx])) hn

theorem statuses_go_ok_isSome :
    ∀ (names : List String) (acc res : List DexStatus),
      get_mixed_mode_dex_statuses_go acc names = .ok res →
      ∀ n ∈ names, (string_to_status n).isSome := by
  intro names
  induction names with
  | nil => intro acc res _ n hn; simp at hn
  | cons m rest ih =>
    intro acc res h n hn
    cases hm : string_to_status m with
    | none => simp [get_mixed_mode_dex_statuses_go, hm] at h
    | some st =>
      simp only [get_mixed_mode_dex_statuses_go, hm] at h
      rcases List.mem_cons.mp hn with hn | hn
      · simp [hn, hm]
      · exact ih _ res h n hn

theorem read_go_skip_unresolvable (get_type : String → Option DexType)
    (type_class : DexType → Option DexClass) (n : String)
    (hn : resolveClass get_type type_class n = none) :
    ∀ (l1 l2 : List String) (acc : List DexClass),
      read_mixed_mode_classes_go get_type type_class acc (l1 ++ n :: l2) =
        read_mixed_mode_classes_go get_type type_class acc (l1 ++ l2) := by
  intro l1
  induction l1 with
  | nil =>
    intro l2 acc
    simp only [List.nil_append]
    rw [read_go_cons, hn]
  | cons x rest ih =>
    intro l2 acc
    simp only [List.cons_append]
    rw [read_go_cons, read_go_cons]
    cases hx : resolveClass get_type type_class x with
    | none => exact ih l2 acc
    | some cls =>
      by_cases hmem : cls ∈ acc
      · simp [hmem]
      · simp only [if_neg hmem]
        exact ih l2 (acc ++ [cls])

namespace SpecModel

theorem greedyPackGo_flatten (ceiling : Nat) :
    ∀ (l cur : List CompiledClass) (curSize : Nat),
      (greedyPackGo ceiling cur curSize l).flatten = cur ++ l := by
  intro l
  induction l with
  | nil => intro cur curSize; simp [greedyPackGo]
  | cons c rest ih =>
    intro cur curSize
    rw [greedyPackGo]
    by_cases h : curSize + c.weight ≤ ceiling
    · rw [if_pos h, ih]; simp
    · rw [if_neg h]
      simp [List.flatten_cons, ih]

theorem greedyPack_flatten (ceiling : Nat) (l : List CompiledClass) :
    (greedyPack ceiling l).flatten = l := by
  cases l with
  | nil => rfl
  | cons c rest => rw [greedyPack, greedyPackGo_flatten]; rfl

theorem segment_partition_perm (seg : CompiledClass → PrioritySegment)
    (l : List CompiledClass) :
    ((segOrder.map (fun s => l.filter (fun c => seg c = s))).flatten).Perm
      l := by
  apply List.perm_iff_count.mpr
  intro a
  simp only [segOrder, List.map_cons, List.map_nil, List.flatten_cons,
    List.flatten_nil, List.count_append, List.append_nil]
  have hcount : ∀ s : PrioritySegment,
      (l.filter (fun c => seg c = s)).count a =
        if seg a = s then l.count a else 0 := by
    intro s
    by_cases h : seg a = s
    · rw [if_pos h]
      exact List.count_filter (by simp [h])
    · rw [if_neg h, List.count_eq_zero]
      intro hmem
      exact h (by simpa using (List.mem_filter.mp hmem).2)

  rw [hcount, hcount, hcount, hcount]
  cases h : seg a <;> simp [h]

end SpecModel

/-! ### Claim theorems -/

/-- C2: a configuration with `can_touch_coldstart_cls = true` and
`can_touch_coldstart_extended_cls = false` is rejected by `configure_pass`
with a fatal error, and every configuration that passes validation
satisfies the invariant that touching cold-start implies touching extended
cold-start is also permitted. -/
theorem c2_touch_permission_validated :
    (∀ jw : JsonConfig, jw.can_touch_coldstart_cls = some true →
      jw.can_touch_coldstart_extended_cls = some false →
      configure_pass jw =
        .error "can_touch_coldstart_extended_cls needs to be true") ∧
    (∀ (jw : JsonConfig) (cfg : PassConfig), configure_pass jw = .ok cfg →
      cfg.m_can_touch_coldstart_cls = true →
      cfg.m_can_touch_coldstart_extended_cls = true) := by
  constructor
  · intro jw h1 h2
    simp [configure_pass, h1, h2]
  · intro jw cfg h hct
    simp only [configure_pass] at h
    by_cases hc : (!jw.can_touch_coldstart_cls.getD false ||
        jw.can_touch_coldstart_extended_cls.getD false) = true
    · rw [if_pos hc] at h
      cases hg : get_mixed_mode_dex_statuses (jw.mixed_mode_dexes.getD [])
        with
      | error e => rw [hg] at h; exact absurd h (by simp)
      | ok sts =>
        rw [hg] at h
        cases h
        simp only at hct
        simpa [hct] using hc
    · rw [if_neg hc] at h
      exact absurd h (by simp)

/-- C2 witness: the forbidden combination is concretely rejected, and a
concretely validated configuration satisfies the invariant. -/
theorem c2_witness :
    configure_pass
        (JsonConfig.mk none none none none none (some true) (some false)
          none) =
      .error "can_touch_coldstart_extended_cls needs to be true" ∧
    (PassConfig.mk false true false (11600 * 1024) "" true true
        []).m_can_touch_coldstart_extended_cls = true :=
  ⟨c2_touch_permission_validated.1
      (JsonConfig.mk none none none none none (some true) (some false) none)
      rfl rfl,
    c2_touch_permission_validated.2
      (JsonConfig.mk none none none none none (some true) (some true) none)
      (PassConfig.mk false true false (11600 * 1024) "" true true [])
      (by rfl) rfl⟩

/-- C3: resolving the configured segment names aborts fatally at the first
name absent from the built-in table (the error carries that name, and no
partial status set is produced), and any configuration that validates
successfully contained only known names. -/
theorem c3_unknown_status_fatal :
    (∀ (pre : List String) (n : String) (post : List String),
      (∀ m ∈ pre, (string_to_status m).isSome) →
      string_to_status n = none →
      get_mixed_mode_dex_statuses (pre ++ n :: post) = .error n) ∧
    (∀ (jw : JsonConfig) (cfg : PassConfig), configure_pass jw = .ok cfg →
      ∀ n ∈ jw.mixed_mode_dexes.getD [], (string_to_status n).isSome) := by
  constructor
  · intro pre n post hpre hn
    exact statuses_go_error pre [] n post hpre hn
  · intro jw cfg h n hn
    simp only [configure_pass] at h
    by_cases hc : (!jw.can_touch_coldstart_cls.getD false ||
        jw.can_touch_coldstart_extended_cls.getD false) = true
    · rw [if_pos hc] at h
      cases hg : get_mixed_mode_dex_statuses (jw.mixed_mode_dexes.getD [])
        with
      | error e => rw [hg] at h; exact absurd h (by simp)
      | ok sts => exact statuses_go_ok_isSome _ [] sts hg n hn
    · rw [if_neg hc] at h
      exact absurd h (by simp)

/-- C3 witness: a concrete list with an unknown middle name aborts on
exactly that name, and a concretely validated configuration only named
known statuses. -/
theorem c3_witness :
    get_mixed_mode_dex_statuses
        ["first_coldstart_dex", "bogus_dex", "scroll_dex"] =
      .error "bogus_dex" ∧
    (string_to_status "scroll_dex").isSome :=
  ⟨c3_unknown_status_fatal.1 ["first_coldstart_dex"] "bogus_dex"
      ["scroll_dex"] (by decide) (by decide),
    c3_unknown_status_fatal.2
      (JsonConfig.mk none none none none none none none
        (some ["scroll_dex"]))
      (PassConfig.mk false true false (11600 * 1024) "" false false
        [.SCROLL_DEX])
      (by rfl) "scroll_dex" (by simp)⟩

/-- C4 counterexample: the identifier `LA;` occurs twice in the list source,
yet with `LA;` unresolvable in the scope the read succeeds with an empty
result instead of aborting — duplicate raw identifiers alone are not
fatal. -/
theorem c4_counterexample :
    (["LA;", "LA;"] : List String).count "LA;" = 2 ∧
    get_mixed_mode_classes_file (fun _ => none) (fun _ => none)
        (some ["LA;", "LA;"]) = .ok [] := by
  constructor
  · rfl
  · rfl

/-- C4 (amended): reading an explicit classification list is fatal exactly
when some class of the scope is resolved by more than one entry (in
particular by a twice-occurring resolvable identifier): whenever two
entries resolve to the same class, the read aborts with an error. -/
theorem c4_duplicate_resolved_fatal (get_type : String → Option DexType)
    (type_class : DexType → Option DexClass) (names : List String)
    (h : ∃ c, 2 ≤ (names.filterMap (resolveClass get_type type_class)).count
      c) :
    ∃ e, get_mixed_mode_classes_file get_type type_class (some names) =
      .error e := by
  obtain ⟨c, hc⟩ := h
  cases hres : read_mixed_mode_classes_go get_type type_class [] names with
  | error e => exact ⟨e, by simp [get_mixed_mode_classes_file, hres]⟩
  | ok res =>
    obtain ⟨heq, hnd⟩ := read_go_ok _ _ names [] res (by simp) hres
    rw [List.nil_append] at heq
    subst heq
    have := List.nodup_iff_count_le_one.mp hnd c
    omega

/-- C4 witness: a resolvable identifier occurring twice concretely aborts
the read. -/
theorem c4_witness :
    ∃ e, get_mixed_mode_classes_file
        (fun s => if s = "LA;" then some 1 else none) (fun t => some t)
        (some ["LA;", "LA;"]) = .error e :=
  c4_duplicate_resolved_fatal (fun s => if s = "LA;" then some 1 else none)
    (fun t => some t) ["LA;", "LA;"] ⟨1, by decide⟩

/-- C5 counterexample: a list containing the unresolvable identifier `LB;`
still aborts when its remaining resolvable entries duplicate a class, so
"processing continues with no abort" does not hold for every list
containing an unresolvable identifier. -/
theorem c5_counterexample :
    resolveClass (fun s => if s = "LA;" then some 1 else none)
        (fun t => some t) "LB;" = none ∧
    "LB;" ∈ (["LB;", "LA;", "LA;"] : List String) ∧
    get_mixed_mode_classes_file (fun s => if s = "LA;" then some 1 else none)
        (fun t => some t) (some ["LB;", "LA;", "LA;"]) =
      .error "Duplicate classes found in mixed mode list" := by
  refine ⟨rfl, by simp, ?_⟩
  rfl

/-- C5 (amended): for every explicit classification list containing an
identifier that cannot be resolved in the scope, provided no two entries of
the list resolve to the same class (duplicates are the separate fatal
condition), the unresolvable entry is skipped and processing continues
non-fatally: the result is exactly the classes of the resolvable entries,
in list order, with no abort. -/
theorem c5_unresolvable_skipped (get_type : String → Option DexType)
    (type_class : DexType → Option DexClass) (names : List String)
    (n : String) (hmem : n ∈ names)
    (hn : resolveClass get_type type_class n = none)
    (hnd : (names.filterMap (resolveClass get_type type_class)).Nodup) :
    get_mixed_mode_classes_file get_type type_class (some names) =
      .ok (names.filterMap (resolveClass get_type type_class)) := by
  have := read_go_ok_of_nodup get_type type_class names []
    (by simpa using hnd)
  simpa [get_mixed_mode_classes_file] using this

/-- C5 witness: a concrete list with one unresolvable identifier yields
exactly the resolvable remainder, without an error. -/
theorem c5_witness :
    get_mixed_mode_classes_file
        (fun s => if s = "LA;" then some 1 else none) (fun t => some t)
        (some ["LB;", "LA;"]) = .ok [1] := by
  have h := c5_unresolvable_skipped
    (fun s => if s = "LA;" then some 1 else none) (fun t => some t)
    ["LB;", "LA;"] "LB;" (by simp) (by rfl) (by decide)
  simpa using h

/-- C10: duplicate detection operates on resolved classes, not raw
identifiers: an identifier that is unresolvable in the scope is skipped at
every occurrence (removing both occurrences from the source changes
nothing, in particular no fatal error arises from them), while any two
entries — equal or distinct — that resolve to the same class abort the
read fatally. -/
theorem c10_duplicates_on_resolved_classes :
    (∀ (get_type : String → Option DexType)
      (type_class : DexType → Option DexClass) (n : String)
      (pre mid post : List String) (acc : List DexClass),
      resolveClass get_type type_class n = none →
      read_mixed_mode_classes_go get_type type_class acc
          (pre ++ n :: mid ++ n :: post) =
        read_mixed_mode_classes_go get_type type_class acc
          (pre ++ mid ++ post)) ∧
    (∀ (get_type : String → Option DexType)
      (type_class : DexType → Option DexClass) (names : List String)
      (c : DexClass),
      2 ≤ (names.filterMap (resolveClass get_type type_class)).count c →
      ∃ e, read_mixed_mode_classes_go get_type type_class [] names =
        .error e) := by
  constructor
  · intro get_type type_class n pre mid post acc hn
    have h1 := read_go_skip_unresolvable get_type type_class n hn pre
      (mid ++ n :: post) acc
    have h2 := read_go_skip_unresolvable get_type type_class n hn
      (pre ++ mid) post acc
    simp only [List.cons_append, List.append_assoc] at h1 h2 ⊢
    rw [h1, h2]
  · intro get_type type_class names c hc
    cases hres : read_mixed_mode_classes_go get_type type_class [] names
      with
    | error e => exact ⟨e, rfl⟩
    | ok res =>
      obtain ⟨heq, hnd⟩ := read_go_ok _ _ names [] res (by simp) hres
      rw [List.nil_append] at heq
      subst heq
      have := List.nodup_iff_count_le_one.mp hnd c
      omega

/-- C10 witness: an unresolvable identifier occurring twice is concretely
skipped both times (the read equals the read of the list without it), and
two distinct identifiers resolving to the same class concretely abort. -/
theorem c10_witness :
    read_mixed_mode_classes_go
        (fun s => if s = "LY;" then some 1 else none) (fun t => some t) []
        (["LY;"] ++ "LX;" :: [] ++ "LX;" :: []) =
      read_mixed_mode_classes_go
        (fun s => if s = "LY;" then some 1 else none) (fun t => some t) []
        (["LY;"] ++ [] ++ []) ∧
    ∃ e, read_mixed_mode_classes_go (fun _ => some 0) (fun _ => some 7) []
        ["LA;", "LB;"] = .error e :=
  ⟨c10_duplicates_on_resolved_classes.1
      (fun s => if s = "LY;" then some 1 else none) (fun t => some t)
      "LX;" ["LY;"] [] [] [] (by rfl),
    c10_duplicates_on_resolved_classes.2 (fun _ => some 0) (fun _ => some 7)
      ["LA;", "LB;"] 7 (by decide)⟩

/-- C6: when a classification file is configured (non-empty name), the
result is the file read alone — identical for any flag data and any dex
contents, so the per-class flags are never consulted; an absent configured
file yields the empty result non-fatally rather than falling back to the
flag scan; and the flag scan runs exactly when no file is configured. -/
theorem c6_file_precedence :
    (∀ (get_type : String → Option DexType)
      (type_class : DexType → Option DexClass)
      (fs : String → Option (List String))
      (flag1 flag2 : DexClass → Bool)
      (dexen1 dexen2 : List (List DexClass)) (file : String), file ≠ "" →
      get_mixed_mode_classes get_type type_class fs flag1 dexen1 file =
        get_mixed_mode_classes_file get_type type_class (fs file) ∧
      get_mixed_mode_classes get_type type_class fs flag1 dexen1 file =
        get_mixed_mode_classes get_type type_class fs flag2 dexen2 file) ∧
    (∀ (get_type : String → Option DexType)
      (type_class : DexType → Option DexClass)
      (fs : String → Option (List String)) (flag : DexClass → Bool)
      (dexen : List (List DexClass)) (file : String), file ≠ "" →
      fs file = none →
      get_mixed_mode_classes get_type type_class fs flag dexen file =
        .ok []) ∧
    (∀ (get_type : String → Option DexType)
      (type_class : DexType → Option DexClass)
      (fs : String → Option (List String)) (flag : DexClass → Bool)
      (dexen : List (List DexClass)),
      get_mixed_mode_classes get_type type_class fs flag dexen "" =
        .ok ((dexen.flatten).foldl
          (fun acc cls => if flag cls then setInsert acc cls else acc)
          [])) := by
  refine ⟨?_, ?_, ?_⟩
  · intro get_type type_class fs flag1 flag2 dexen1 dexen2 file hfile
    constructor <;> simp [get_mixed_mode_classes, hfile]
  · intro get_type type_class fs flag dexen file hfile habs
    simp [get_mixed_mode_classes, hfile, habs, get_mixed_mode_classes_file]
  · intro get_type type_class fs flag dexen
    simp [get_mixed_mode_classes]

/-- C6 witness: with a configured but absent file the result is concretely
empty and independent of flag data; with no file configured the flag scan
concretely collects the flagged classes. -/
theorem c6_witness :
    get_mixed_mode_classes (fun _ => none) (fun _ => none) (fun _ => none)
        (fun _ => true) [[1, 2], [3]] "scroll.txt" = .ok [] ∧
    get_mixed_mode_classes (fun _ => none) (fun _ => none) (fun _ => none)
        (fun c => c % 2 = 1) [[1, 2], [3]] "" = .ok [1, 3] := by
  constructor
  · exact c6_file_precedence.2.1 (fun _ => none) (fun _ => none)
      (fun _ => none) (fun _ => true) [[1, 2], [3]] "scroll.txt"
      (by decide) rfl
  · have h := c6_file_precedence.2.2 (fun _ => none) (fun _ => none)
      (fun _ => none) (fun c => c % 2 = 1) [[1, 2], [3]]
    simpa [setInsert] using h

/-- C7: a non-empty pre-defined mixed-mode dex status set is handed to the
engine as the authoritative setting, with an outcome independent of every
class-classification input (file system, resolution, flags, dexen), so the
class set is never computed; the class-set path is taken only when the
status set is empty. -/
theorem c7_segment_set_priority :
    (∀ (gt1 : String → Option DexType) (tc1 : DexType → Option DexClass)
      (fs1 : String → Option (List String)) (flag1 : DexClass → Bool)
      (dexen1 : List (List DexClass))
      (gt2 : String → Option DexType) (tc2 : DexType → Option DexClass)
      (fs2 : String → Option (List String)) (flag2 : DexClass → Bool)
      (dexen2 : List (List DexClass)) (cfg : PassConfig),
      cfg.m_mixed_mode_dex_statuses ≠ [] →
      select_mixed_mode gt1 tc1 fs1 flag1 cfg dexen1 =
        .ok (.dexStatuses cfg.m_mixed_mode_dex_statuses) ∧
      select_mixed_mode gt1 tc1 fs1 flag1 cfg dexen1 =
        select_mixed_mode gt2 tc2 fs2 flag2 cfg dexen2) ∧
    (∀ (gt : String → Option DexType) (tc : DexType → Option DexClass)
      (fs : String → Option (List String)) (flag : DexClass → Bool)
      (dexen : List (List DexClass)) (cfg : PassConfig)
      (cs : List DexClass),
      cfg.m_mixed_mode_dex_statuses = [] →
      get_mixed_mode_classes gt tc fs flag dexen
          cfg.m_mixed_mode_classes_file = .ok cs →
      select_mixed_mode gt tc fs flag cfg dexen =
        .ok (if cs.length > 0 then
            .classSet cs cfg.m_can_touch_coldstart_cls
              cfg.m_can_touch_coldstart_extended_cls
          else .unset)) := by
  constructor
  · intro gt1 tc1 fs1 flag1 dexen1 gt2 tc2 fs2 flag2 dexen2 cfg hne
    have hlen : cfg.m_mixed_mode_dex_statuses.length ≠ 0 := by
      simpa [List.length_eq_zero] using hne
    constructor <;> simp [select_mixed_mode, hlen]
  · intro gt tc fs flag dexen cfg cs hempty hok
    have hlen : cfg.m_mixed_mode_dex_statuses.length = 0 := by
      simp [hempty]
    simp only [select_mixed_mode, hlen, ne_eq, not_true_eq_false,
      if_false, hok]
    by_cases hcs : 0 < cs.length <;> simp [hcs]

/-- C7 witness: with a concrete non-empty status set the engine setting is
that status set, unchanged under a completely different classification
environment; with an empty status set and a concretely flagged class the
class-set path is taken. -/
theorem c7_witness :
    select_mixed_mode (fun _ => none) (fun _ => none) (fun _ => none)
        (fun _ => true)
        (PassConfig.mk false true false 100 "f" false false
          [.SCROLL_DEX]) [[1]] =
      .ok (.dexStatuses [.SCROLL_DEX]) ∧
    select_mixed_mode (fun _ => none) (fun _ => none) (fun _ => none)
        (fun _ => true)
        (PassConfig.mk false true false 100 "" true true []) [[1]] =
      .ok (.classSet [1] true true) := by
  constructor
  · exact (c7_segment_set_priority.1 (fun _ => none) (fun _ => none)
      (fun _ => none) (fun _ => true) [[1]] (fun _ => some 0)
      (fun _ => some 0) (fun _ => some []) (fun _ => false) []
      (PassConfig.mk false true false 100 "f" false false [.SCROLL_DEX])
      (by decide)).1
  · have h := c7_segment_set_priority.2 (fun _ => none) (fun _ => none)
      (fun _ => none) (fun _ => true)
      [[1]] (PassConfig.mk false true false 100 "" true true []) [1]
      rfl (by rfl)
    simpa using h

/-- C8: when no ProGuard configuration was provided, the top-level pass is
an immediate no-op: it succeeds (not an error), leaves every store
unchanged, and performs no plugin hook call and no metric publication
(empty event list), whatever the inner pass would have done. -/
theorem c8_no_proguard_noop
    (inner : List (List DexClass) →
      Except String (List (List DexClass) × List PassEvent))
    (stores : List DexStore) :
    run_pass_stores true inner stores = .ok (stores, []) := rfl

theorem process_stores_non_root_untouched
    (inner : List (List DexClass) →
      Except String (List (List DexClass) × List PassEvent)) :
    ∀ (stores out : List DexStore) (events : List PassEvent),
      process_stores inner stores = .ok (out, events) →
      List.Forall₂ (fun s o => s.is_root_store = false → o = s) stores
        out := by
  intro stores
  induction stores with
  | nil =>
    intro out events h
    simp only [process_stores] at h
    cases h
    exact List.Forall₂.nil
  | cons s rest ih =>
    intro out events h
    simp only [process_stores] at h
    by_cases hr : s.is_root_store
    · rw [if_pos hr] at h
      cases hi : inner s.dexen with
      | error e => rw [hi] at h; exact absurd h (by simp)
      | ok r =>
        rw [hi] at h
        cases hp : process_stores inner rest with
        | error e => rw [hp] at h; exact absurd h (by simp)
        | ok t =>
          rw [hp] at h
          cases h
          exact List.Forall₂.cons
            (fun hfalse => absurd hr (by simp [hfalse]))
            (ih t.1 t.2 (by rw [hp]))
    · rw [if_neg hr] at h
      cases hp : process_stores inner rest with
      | error e => rw [hp] at h; exact absurd h (by simp)
      | ok t =>
        rw [hp] at h
        cases h
        exact List.Forall₂.cons (fun _ => rfl) (ih t.1 t.2 (by rw [hp]))

/-- C9: when the pass runs (ProGuard configuration present) and succeeds,
every store that is not a root store passes through unchanged — the output
store list is related index-by-index to the input, and at every non-root
position the output store equals the input store. -/
theorem c9_non_root_stores_untouched
    (inner : List (List DexClass) →
      Except String (List (List DexClass) × List PassEvent))
    (stores out : List DexStore) (events : List PassEvent)
    (h : run_pass_stores false inner stores = .ok (out, events)) :
    List.Forall₂ (fun s o => s.is_root_store = false → o = s) stores
      out := by
  exact process_stores_non_root_untouched inner stores out events h

/-- C9 witness: with a concrete inner pass and a mixed store list, the root
store is repacked while the non-root store is concretely unchanged. -/
theorem c9_witness :
    List.Forall₂ (fun s o => s.is_root_store = false → o = s)
      [DexStore.mk true [[1]], DexStore.mk false [[2]]]
      [DexStore.mk true [[42], [1]], DexStore.mk false [[2]]] :=
  c9_non_root_stores_untouched
    (fun d => .ok ([42] :: d, []))
    [DexStore.mk true [[1]], DexStore.mk false [[2]]]
    [DexStore.mk true [[42], [1]], DexStore.mk false [[2]]] [] (by rfl)

namespace SpecModel

/-- C1: for every configuration, classification and scope, the classes
contained in the output units of one packing run are a permutation of the
(possibly pruned) input scope — as multisets the output equals the pruned
scope, so packing itself neither duplicates nor drops a class (only the
static-prune step removes classes) — and an input scope without duplicate
classes yields an output without duplicate classes. -/
theorem c1_packing_partitions_scope
    (ceiling : Nat) (emitCanaries staticPrune : Bool)
    (reachable prot : CompiledClass → Bool)
    (seg : CompiledClass → PrioritySegment) (scope : List CompiledClass) :
    (outputClasses (interdex_run ceiling emitCanaries staticPrune reachable
        prot seg scope)).Perm (prune staticPrune reachable prot scope) ∧
    (scope.Nodup →
      (outputClasses (interdex_run ceiling emitCanaries staticPrune
          reachable prot seg scope)).Nodup) := by
  have hperm : (outputClasses (interdex_run ceiling emitCanaries staticPrune
      reachable prot seg scope)).Perm
      (prune staticPrune reachable prot scope) := by
    have hp := segment_partition_perm seg
      (prune staticPrune reachable prot scope)
    have heq : outputClasses (interdex_run ceiling emitCanaries staticPrune
        reachable prot seg scope) =
        ((segOrder.map (fun s =>
          (prune staticPrune reachable prot scope).filter
            (fun c => seg c = s))).flatten) := by
      simp [interdex_run, outputClasses, segOrder, List.map_map,
        Function.comp_def, greedyPack_flatten]
    rw [heq]
    exact hp
  refine ⟨hperm, fun hnd => ?_⟩
  have hpruned : (prune staticPrune reachable prot scope).Nodup := by
    unfold prune
    by_cases h : staticPrune = true
    · rw [if_pos h]; exact hnd.filter _
    · rw [if_neg h]; exact hnd
  exact hperm.nodup_iff.mpr hpruned

/-- C1 witness: a concrete three-class scope with pruning enabled, mixed
segments and a small ceiling packs to exactly the pruned scope, once each
and without duplicates. -/
theorem c1_witness :
    (outputClasses (interdex_run 2 true true (fun c => c.cid % 2 = 0)
        (fun c => c.weight = 2)
        (fun c => if c.cid = 1 then PrioritySegment.firstColdStart
          else PrioritySegment.defaultSegment)
        [CompiledClass.mk 0 1, CompiledClass.mk 1 2,
         CompiledClass.mk 2 1, CompiledClass.mk 3 1])).Perm
      (prune true (fun c => c.cid % 2 = 0) (fun c => c.weight = 2)
        [CompiledClass.mk 0 1, CompiledClass.mk 1 2,
         CompiledClass.mk 2 1, CompiledClass.mk 3 1]) ∧
    (outputClasses (interdex_run 2 true true (fun c => c.cid % 2 = 0)
        (fun c => c.weight = 2)
        (fun c => if c.cid = 1 then PrioritySegment.firstColdStart
          else PrioritySegment.defaultSegment)
        [CompiledClass.mk 0 1, CompiledClass.mk 1 2,
         CompiledClass.mk 2 1, CompiledClass.mk 3 1])).Nodup :=
  ⟨(c1_packing_partitions_scope 2 true true (fun c => c.cid % 2 = 0)
      (fun c => c.weight = 2)
      (fun c => if c.cid = 1 then PrioritySegment.firstColdStart
        else PrioritySegment.defaultSegment)
      [CompiledClass.mk 0 1, CompiledClass.mk 1 2,
       CompiledClass.mk 2 1, CompiledClass.mk 3 1]).1,
    (c1_packing_partitions_scope 2 true true (fun c => c.cid % 2 = 0)
      (fun c => c.weight = 2)
      (fun c => if c.cid = 1 then PrioritySegment.firstColdStart
        else PrioritySegment.defaultSegment)
      [CompiledClass.mk 0 1, CompiledClass.mk 1 2,
       CompiledClass.mk 2 1, CompiledClass.mk 3 1]).2 (by decide)⟩

end SpecModel

end InterDex
